import Mathlib

/-!
Verification of the notebook scripts of the dli-triton-server-study
repository against its natural-language specification.

The repository consists of three Jupyter notebooks (02 Simple PyTorch
Model, 04 Simple TensorFlow Model, 05 Simple TensorRT Model).  Each
notebook is a linear sequence of code cells.  We embed each notebook as
a list of cells, where a cell carries the list of externally visible
operations it performs (directory creation, model export, configuration
file write, sleep, curl, Triton client calls, prints) together with
syntactic attributes of its Python source (presence of for-loops, list
comprehensions, while loops, branches, try/except, inspection of HTTP
status, and whether the cell raises NameError on an unreplaced FIXME
placeholder).  Pure in-memory steps (imports, class definitions,
variable assignments) contribute no operations.

All definitions are transcribed from the notebook sources; cell-by-cell
provenance is given in the doc comments.
-/

namespace NB

/-- Triton model configuration tensor entry, as written in the literal
config.pbtxt text blobs of the notebooks: a tensor name, a data type
string such as TYPE_FP32, an optional format string such as FORMAT_NCHW,
and a dims list. -/
structure TensorCfg where
  name : String
  dataType : String
  format : Option String
  dims : List Int
deriving DecidableEq, Repr

/-- A Triton model configuration, the evident parse of a config.pbtxt
text blob written by a notebook: model name, platform, max_batch_size,
input tensor entries and output tensor entries. -/
structure ModelConfig where
  name : String
  platform : String
  maxBatchSize : Nat
  inputs : List TensorCfg
  outputs : List TensorCfg
deriving DecidableEq, Repr

/-- The kind of framework export call producing a model artifact. -/
inductive ExportKind where
  /-- torch.jit.script followed by traced_script_module.save. -/
  | torchscript
  /-- torch.onnx.export. -/
  | onnx
  /-- tf.saved_model.save. -/
  | tfSavedModel
deriving DecidableEq, Repr

/-- One named tensor shape given to a trtexec shape flag, e.g.
actual_input_1:16x3x224x224. -/
structure ShapeSpec where
  tensor : String
  dims : List Nat
deriving DecidableEq, Repr

/-- A trtexec command line, as invoked in notebook 05: the source ONNX
path, the explicitBatch flag, the optShapes / maxShapes / minShapes /
shapes flags (in the order they appear in the cell), the saveEngine
destination, and whether the fp16 flag is passed. -/
structure TrtexecCmd where
  onnxPath : String
  explicitBatch : Bool
  optShapes : ShapeSpec
  maxShapes : ShapeSpec
  minShapes : ShapeSpec
  shapes : ShapeSpec
  saveEngine : String
  fp16 : Bool
deriving DecidableEq, Repr

/-- An inference request as assembled via tritonhttpclient.InferInput /
InferRequestedOutput / triton_client.infer: model name and version, the
input tensor name, shape and dtype string, the requested output tensor
name, and the binary_data flags passed to set_data_from_numpy and to
InferRequestedOutput (both False in every notebook). -/
structure InferReq where
  modelName : String
  modelVersion : String
  inputName : String
  inputShape : List Nat
  inputDtype : String
  outputName : String
  inputBinaryData : Bool
  outputBinaryData : Bool
deriving DecidableEq, Repr

/-- Externally visible operations performed by notebook cells. -/
inductive Op where
  /-- Shell mkdir -p of the given path. -/
  | mkdir (path : String)
  /-- Read of a local file (labels JSON, goldfish image, cached weights). -/
  | readFile (path : String)
  /-- Local, in-process model inference used only to validate the model
  before deployment (no server involved, no filesystem write). -/
  | localValidate
  /-- A print of auxiliary data (label samples, tensor shapes, local
  top-k results) that is not the decoded server response. -/
  | printOther
  /-- A framework export call writing a model artifact to the path. -/
  | exportModel (kind : ExportKind) (path : String)
  /-- A trtexec invocation reading cmd.onnxPath and writing the engine
  plan to cmd.saveEngine. -/
  | trtexecConvert (cmd : TrtexecCmd)
  /-- Writing a configuration text blob (parsed as cfg) to path. -/
  | writeConfig (path : String) (cfg : ModelConfig)
  /-- Shell sleep of the given number of seconds. -/
  | shellSleep (secs : Nat)
  /-- curl -v of the given URL (health or model readiness endpoint). -/
  | curlGet (url : String)
  /-- tritonhttpclient.InferenceServerClient construction for url. -/
  | clientCreate (url : String)
  /-- triton_client.get_model_metadata for the model. -/
  | getModelMetadata (model : String)
  /-- triton_client.get_model_config for the model. -/
  | getModelConfig (model : String)
  /-- triton_client.infer with the given request data. -/
  | inferRequest (req : InferReq)
  /-- logits = response.as_numpy(outputName) followed by
  print(labels[np.argmax(logits)]). -/
  | printLabelArgmax (outputName : String)
  /-- Shell rm -rf of the given path. -/
  | rmTree (path : String)
  /-- IPython kernel shutdown. -/
  | kernelShutdown
deriving DecidableEq, Repr

/-- A notebook code cell: the operations it performs in order, and
syntactic attributes of its Python source. raisesUndefinedName marks the
exercise template cells whose body is an unreplaced FIXME placeholder;
they raise NameError or AttributeError before performing any operation. -/
structure Cell where
  ops : List Op
  hasForLoop : Bool
  hasListComp : Bool
  hasWhileLoop : Bool
  hasBranch : Bool
  hasTryExcept : Bool
  inspectsHttpStatus : Bool
  raisesUndefinedName : Bool
deriving DecidableEq, Repr

/-- A cell that is straight-line Python with no control flow. -/
def plainCell (ops : List Op) : Cell :=
  ⟨ops, false, false, false, false, false, false, false⟩

/-- An exercise template cell containing FIXME placeholders: it raises
before performing any operation and has no control flow. -/
def fixmeCell : Cell :=
  ⟨[], false, false, false, false, false, false, true⟩

/-- A notebook is its list of code cells in order (markdown cells
perform nothing and are omitted). -/
def allOps (nb : List Cell) : List Op :=
  (nb.map Cell.ops).flatten

/-! ### Configuration blobs (transcribed from the literal strings) -/

/-- Config written by notebook 02 to models/simple-pytorch-model/config.pbtxt. -/
def pytorchConfig : ModelConfig :=
  ⟨"simple-pytorch-model", "pytorch_libtorch", 32,
    [⟨"input__0", "TYPE_FP32", some "FORMAT_NCHW", [3, 224, 224]⟩],
    [⟨"output__0", "TYPE_FP32", none, [1000]⟩]⟩

/-- Config written by notebook 02 to models/simple-onnx-model/config.pbtxt. -/
def onnxConfig : ModelConfig :=
  ⟨"simple-onnx-model", "onnxruntime_onnx", 32,
    [⟨"actual_input_1", "TYPE_FP32", some "FORMAT_NCHW", [3, 224, 224]⟩],
    [⟨"output1", "TYPE_FP32", none, [1000]⟩]⟩

/-- Config written by notebook 04 to models/simple-tensorflow-model/config.pbtxt. -/
def tfConfig : ModelConfig :=
  ⟨"simple-tensorflow-model", "tensorflow_savedmodel", 32,
    [⟨"input_0", "TYPE_FP32", some "FORMAT_NHWC", [224, 224, 3]⟩],
    [⟨"output_0", "TYPE_FP32", none, [1000]⟩]⟩

/-- Config written by notebook 05 to models/simple-tensorrt-fp32-model/config.pbtxt. -/
def trtFp32Config : ModelConfig :=
  ⟨"simple-tensorrt-fp32-model", "tensorrt_plan", 32,
    [⟨"actual_input_1", "TYPE_FP32", some "FORMAT_NCHW", [3, 224, 224]⟩],
    [⟨"output1", "TYPE_FP32", none, [1000]⟩]⟩

/-- Config written by notebook 05 to models/simple-tensorrt-fp16-model/config.pbtxt. -/
def trtFp16Config : ModelConfig :=
  ⟨"simple-tensorrt-fp16-model", "tensorrt_plan", 32,
    [⟨"actual_input_1", "TYPE_FP32", some "FORMAT_NCHW", [3, 224, 224]⟩],
    [⟨"output1", "TYPE_FP32", none, [1000]⟩]⟩

/-! ### trtexec invocations (notebook 05) -/

/-- First trtexec invocation of notebook 05 (FP32 engine). -/
def trtexecFp32 : TrtexecCmd :=
  ⟨"models/simple-onnx-model/1/model.onnx", true,
    ⟨"actual_input_1", [16, 3, 224, 224]⟩,
    ⟨"actual_input_1", [32, 3, 224, 224]⟩,
    ⟨"actual_input_1", [1, 3, 224, 224]⟩,
    ⟨"actual_input_1", [1, 3, 224, 224]⟩,
    "models/simple-tensorrt-fp32-model/1/model.plan", false⟩

/-- Second trtexec invocation of notebook 05 (FP16 engine, fp16 flag). -/
def trtexecFp16 : TrtexecCmd :=
  ⟨"models/simple-onnx-model/1/model.onnx", true,
    ⟨"actual_input_1", [16, 3, 224, 224]⟩,
    ⟨"actual_input_1", [32, 3, 224, 224]⟩,
    ⟨"actual_input_1", [1, 3, 224, 224]⟩,
    ⟨"actual_input_1", [1, 3, 224, 224]⟩,
    "models/simple-tensorrt-fp16-model/1/model.plan", true⟩

/-! ### Inference requests -/

/-- Notebook 02 main inference request (simple-pytorch-model). -/
def pytorchReq : InferReq :=
  ⟨"simple-pytorch-model", "1", "input__0", [1, 3, 224, 224], "FP32",
    "output__0", false, false⟩

/-- Notebook 02 exercise solution inference request (simple-onnx-model). -/
def onnxReq : InferReq :=
  ⟨"simple-onnx-model", "1", "actual_input_1", [1, 3, 224, 224], "FP32",
    "output1", false, false⟩

/-- Notebook 04 inference request (simple-tensorflow-model). -/
def tfReq : InferReq :=
  ⟨"simple-tensorflow-model", "1", "input_0", [1, 224, 224, 3], "FP32",
    "output_0", false, false⟩

/-- Notebook 05 main inference request (simple-tensorrt-fp32-model). -/
def trtFp32Req : InferReq :=
  ⟨"simple-tensorrt-fp32-model", "1", "actual_input_1", [1, 3, 224, 224],
    "FP32", "output1", false, false⟩

/-- Notebook 05 exercise solution inference request (simple-tensorrt-fp16-model). -/
def trtFp16Req : InferReq :=
  ⟨"simple-tensorrt-fp16-model", "1", "actual_input_1", [1, 3, 224, 224],
    "FP32", "output1", false, false⟩

/-! ### Notebook 02 - Simple PyTorch Model (src/unnamed/part_000) -/

/-- Notebook 02 cell printing the local top-3 predictions: the only
notebook cell with a for loop (for i in range(K) over K = 3). -/
def localTopKCell : Cell :=
  ⟨[Op.localValidate, Op.printOther], true, false, false, false, false, false, false⟩

/-- Notebook 02 ONNX export cell: builds input_names with a list
comprehension over range(16), then calls torch.onnx.export. -/
def onnxExportCell : Cell :=
  ⟨[Op.exportModel ExportKind.onnx "models/simple-onnx-model/1/model.onnx"],
    false, true, false, false, false, false, false⟩

/-- Notebook 02 (Simple PyTorch Model), code cells in order.
Cells: 1 mkdir x4; 2 model class definition; 3 label load and print;
4 goldfish image open; 5 transform pipeline definition; 6 local top-3
validation (for loop); 7 TorchScript export; 8 ONNX export (list
comprehension); 9-10 config writes; 11 sleep 45; 12-14 curl; 15 client
import; 16 name assignments; 17 client create and metadata/config;
18 image to numpy and shape print; 19 infer and shape print; 20 decoded
label print; 21-28 exercise (FIXME templates and hidden solutions for
the ONNX model); 29 kernel shutdown. -/
def notebook02 : List Cell :=
  [ plainCell [Op.mkdir "models/simple-pytorch-model",
      Op.mkdir "models/simple-pytorch-model/1",
      Op.mkdir "models/simple-onnx-model",
      Op.mkdir "models/simple-onnx-model/1"],
    plainCell [],
    plainCell [Op.readFile "./imagenet-simple-labels.json", Op.printOther],
    plainCell [Op.readFile "./assets/goldfish.jpg"],
    plainCell [],
    localTopKCell,
    plainCell [Op.exportModel ExportKind.torchscript
      "models/simple-pytorch-model/1/model.pt"],
    onnxExportCell,
    plainCell [Op.writeConfig "models/simple-pytorch-model/config.pbtxt" pytorchConfig],
    plainCell [Op.writeConfig "models/simple-onnx-model/config.pbtxt" onnxConfig],
    plainCell [Op.shellSleep 45],
    plainCell [Op.curlGet "triton:8000/v2/health/ready"],
    plainCell [Op.curlGet "triton:8000/v2/models/simple-pytorch-model"],
    plainCell [Op.curlGet "triton:8000/v2/models/simple-onnx-model"],
    plainCell [],
    plainCell [],
    plainCell [Op.clientCreate "triton:8000",
      Op.getModelMetadata "simple-pytorch-model",
      Op.getModelConfig "simple-pytorch-model"],
    plainCell [Op.printOther],
    plainCell [Op.inferRequest pytorchReq, Op.printOther],
    plainCell [Op.printLabelArgmax "output__0"],
    fixmeCell,
    plainCell [],
    fixmeCell,
    plainCell [Op.clientCreate "triton:8000",
      Op.getModelMetadata "simple-onnx-model",
      Op.getModelConfig "simple-onnx-model"],
    plainCell [Op.printOther],
    fixmeCell,
    plainCell [Op.inferRequest onnxReq],
    plainCell [Op.printLabelArgmax "output1"],
    plainCell [Op.kernelShutdown] ]

/-! ### Notebook 04 - Simple TensorFlow Model -/

/-- Notebook 04 (Simple TensorFlow Model), code cells in order.
Cells: 1 mkdir x2; 2 model definition and SavedModel export; 3 label
load and print; 4 goldfish image open; 5 local Keras validation and
top-3 print; 6 config write; 7 sleep 45; 8-9 curl; 10 client import;
11 name assignments; 12 client create and metadata/config; 13 infer;
14 decoded label print; 15 rm -rf cleanup; 16 kernel shutdown. -/
def notebook04 : List Cell :=
  [ plainCell [Op.mkdir "models/simple-tensorflow-model/",
      Op.mkdir "models/simple-tensorflow-model/1/"],
    plainCell [Op.exportModel ExportKind.tfSavedModel
      "models/simple-tensorflow-model/1/model.savedmodel"],
    plainCell [Op.readFile "./imagenet-simple-labels.json", Op.printOther],
    plainCell [Op.readFile "./assets/goldfish.jpg"],
    plainCell [Op.readFile "./assets/goldfish.jpg", Op.localValidate, Op.printOther],
    plainCell [Op.writeConfig "models/simple-tensorflow-model/config.pbtxt" tfConfig],
    plainCell [Op.shellSleep 45],
    plainCell [Op.curlGet "triton:8000/v2/health/ready"],
    plainCell [Op.curlGet "triton:8000/v2/models/simple-tensorflow-model"],
    plainCell [],
    plainCell [],
    plainCell [Op.clientCreate "triton:8000",
      Op.getModelMetadata "simple-tensorflow-model",
      Op.getModelConfig "simple-tensorflow-model"],
    plainCell [Op.inferRequest tfReq],
    plainCell [Op.printLabelArgmax "output_0"],
    plainCell [Op.rmTree "models/simple-tensorflow-model"],
    plainCell [Op.kernelShutdown] ]

/-! ### Notebook 05 - Simple TensorRT Model (src/unnamed/part_001) -/

/-- Notebook 05 (Simple TensorRT Model), code cells in order.
Cells: 1 mkdir x4; 2 commented trtexec help; 3 trtexec FP32; 4 trtexec
FP16; 5-6 config writes; 7 sleep 45; 8-10 curl; 11 client import;
12 label load; 13 goldfish image open; 14 Keras preprocessing and shape
print; 15 name assignments; 16 client create and metadata/config;
17 infer; 18 decoded label print; 19-25 exercise (FIXME templates and
hidden solutions for the FP16 model); 26 kernel shutdown. -/
def notebook05 : List Cell :=
  [ plainCell [Op.mkdir "models/simple-tensorrt-fp32-model/",
      Op.mkdir "models/simple-tensorrt-fp32-model/1/",
      Op.mkdir "models/simple-tensorrt-fp16-model/",
      Op.mkdir "models/simple-tensorrt-fp16-model/1/"],
    plainCell [],
    plainCell [Op.trtexecConvert trtexecFp32],
    plainCell [Op.trtexecConvert trtexecFp16],
    plainCell [Op.writeConfig "models/simple-tensorrt-fp32-model/config.pbtxt" trtFp32Config],
    plainCell [Op.writeConfig "models/simple-tensorrt-fp16-model/config.pbtxt" trtFp16Config],
    plainCell [Op.shellSleep 45],
    plainCell [Op.curlGet "triton:8000/v2/health/ready"],
    plainCell [Op.curlGet "triton:8000/v2/models/simple-tensorrt-fp32-model"],
    plainCell [Op.curlGet "triton:8000/v2/models/simple-tensorrt-fp16-model"],
    plainCell [],
    plainCell [Op.readFile "./imagenet-simple-labels.json"],
    plainCell [Op.readFile "./assets/goldfish.jpg"],
    plainCell [Op.readFile "./assets/goldfish.jpg", Op.printOther],
    plainCell [],
    plainCell [Op.clientCreate "triton:8000",
      Op.getModelMetadata "simple-tensorrt-fp32-model",
      Op.getModelConfig "simple-tensorrt-fp32-model"],
    plainCell [Op.inferRequest trtFp32Req],
    plainCell [Op.printLabelArgmax "output1"],
    fixmeCell,
    plainCell [],
    fixmeCell,
    plainCell [Op.clientCreate "triton:8000",
      Op.getModelMetadata "simple-tensorrt-fp16-model",
      Op.getModelConfig "simple-tensorrt-fp16-model"],
    fixmeCell,
    plainCell [Op.inferRequest trtFp16Req],
    plainCell [Op.printLabelArgmax "output1"],
    plainCell [Op.kernelShutdown] ]

/-- All three notebooks of the repository. -/
def allNotebooks : List (List Cell) := [notebook02, notebook04, notebook05]

/-! ### Step categories of the spec's linear-script summary -/

/-- The six step categories of the spec's summary of the notebooks:
(a) create directories, (b) export a model artifact, (c) write a static
configuration blob, (d) poll the external server (sleep and curl),
(e) build a request object and call a client method, (f) print the
decoded result. -/
inductive StepCat where
  | createDirs
  | exportArtifact
  | writeConfigFile
  | pollServer
  | clientCall
  | printResult
deriving DecidableEq, Repr

/-- Classification of an operation into the spec's step categories.
Operations outside the six categories (local file reads, local
validation, auxiliary prints, cleanup, kernel shutdown) get none. -/
def categoryOf : Op → Option StepCat
  | Op.mkdir _ => some StepCat.createDirs
  | Op.exportModel _ _ => some StepCat.exportArtifact
  | Op.trtexecConvert _ => some StepCat.exportArtifact
  | Op.writeConfig _ _ => some StepCat.writeConfigFile
  | Op.shellSleep _ => some StepCat.pollServer
  | Op.curlGet _ => some StepCat.pollServer
  | Op.clientCreate _ => some StepCat.clientCall
  | Op.getModelMetadata _ => some StepCat.clientCall
  | Op.getModelConfig _ => some StepCat.clientCall
  | Op.inferRequest _ => some StepCat.clientCall
  | Op.printLabelArgmax _ => some StepCat.printResult
  | Op.readFile _ => none
  | Op.localValidate => none
  | Op.printOther => none
  | Op.rmTree _ => none
  | Op.kernelShutdown => none

/-- Collapse consecutive duplicates in a list. -/
def collapse : List StepCat → List StepCat
  | [] => []
  | [c] => [c]
  | c1 :: c2 :: rest =>
    if c1 = c2 then collapse (c2 :: rest) else c1 :: collapse (c2 :: rest)

/-- The sequence of step categories a notebook performs, with
consecutive repetitions within the same category collapsed. -/
def collapsedCats (nb : List Cell) : List StepCat :=
  collapse ((allOps nb).filterMap categoryOf)

/-- The spec's claimed six-step sequence (a) to (f). -/
def sixSteps : List StepCat :=
  [StepCat.createDirs, StepCat.exportArtifact, StepCat.writeConfigFile,
    StepCat.pollServer, StepCat.clientCall, StepCat.printResult]

end NB

namespace NB

/-- Claim C1, counterexample: notebook 02 does not perform exactly the
six-step sequence (a) to (f): after printing the decoded result of the
simple-pytorch-model request, its exercise section builds a second
request (simple-onnx-model) and prints a second decoded result, so the
collapsed category sequence is a,b,c,d,e,f,e,f, not a,b,c,d,e,f. -/
theorem notebook02_not_six_steps : collapsedCats notebook02 ≠ sixSteps := by
  decide

/-- Claim C1 (amended): every notebook performs the steps (a) create
directories, (b) export model artifacts, (c) write configuration blobs,
(d) poll the external server, (e) build requests and call client
methods, (f) print the decoded result, in this order; notebooks 02 and
05 then repeat steps (e) and (f) once more for the second model they
deploy (the exercise section), while notebook 04 performs exactly the
sequence (a) to (f). -/
theorem notebooks_step_sequence :
    collapsedCats notebook02 =
      sixSteps ++ [StepCat.clientCall, StepCat.printResult] ∧
    collapsedCats notebook04 = sixSteps ∧
    collapsedCats notebook05 =
      sixSteps ++ [StepCat.clientCall, StepCat.printResult] := by
  decide

/-- Claim C2, counterexample: the notebooks are not free of loops:
the local top-3 validation cell of notebook 02 contains a for loop
(for i in range(K) with K = 3). -/
theorem notebook02_has_loop_cell :
    localTopKCell ∈ notebook02 ∧ localTopKCell.hasForLoop = true := by
  decide

/-- Claim C2 (amended): the only control flow beyond straight-line
sequencing in any notebook is a bounded for loop printing the local
top-3 predictions and a list comprehension over range(16) building the
ONNX input names, both in notebook 02; no cell of any notebook contains
a while loop, a branch, a try/except handler, or any concurrency or
failure-recovery construct. -/
theorem notebooks_straight_line :
    ∀ nb ∈ allNotebooks, ∀ c ∈ nb,
      c.hasWhileLoop = false ∧ c.hasBranch = false ∧ c.hasTryExcept = false ∧
      ((c.hasForLoop || c.hasListComp) = true →
        nb = notebook02 ∧ (c = localTopKCell ∨ c = onnxExportCell)) := by
  decide

/-- Witness for the amended claim C2, at the ONNX export cell of
notebook 02. -/
theorem notebooks_straight_line_witness :
    onnxExportCell.hasTryExcept = false ∧
    (notebook02 = notebook02 ∧
      (onnxExportCell = localTopKCell ∨ onnxExportCell = onnxExportCell)) :=
  ⟨(notebooks_straight_line notebook02 (by decide) onnxExportCell
      (by decide)).2.2.1,
    (notebooks_straight_line notebook02 (by decide) onnxExportCell
      (by decide)).2.2.2 (by decide)⟩

/-! ### Extractors over notebook operation lists -/

/-- The configuration writes (path, parsed blob) a notebook performs. -/
def configWritesOf (nb : List Cell) : List (String × ModelConfig) :=
  (allOps nb).filterMap fun op =>
    match op with
    | Op.writeConfig p c => some (p, c)
    | _ => none

/-- The destination paths of the model artifacts a notebook exports
(framework export calls and trtexec saveEngine destinations). -/
def exportPathsOf (nb : List Cell) : List String :=
  (allOps nb).filterMap fun op =>
    match op with
    | Op.exportModel _ p => some p
    | Op.trtexecConvert c => some c.saveEngine
    | _ => none

/-- The inference requests a notebook submits via triton_client.infer. -/
def inferReqsOf (nb : List Cell) : List InferReq :=
  (allOps nb).filterMap fun op =>
    match op with
    | Op.inferRequest r => some r
    | _ => none

/-- The output tensor names decoded and printed by a notebook via
response.as_numpy followed by print(labels[np.argmax(logits)]). -/
def decodePrintNamesOf (nb : List Cell) : List String :=
  (allOps nb).filterMap fun op =>
    match op with
    | Op.printLabelArgmax n => some n
    | _ => none

/-- String prefix test on the underlying character lists. -/
def strStartsWith (p s : String) : Bool :=
  p.data.isPrefixOf s.data

/-- Claim C3: for every configuration blob a notebook writes, the
config.pbtxt path is models/NAME/config.pbtxt for the name NAME carried
inside the blob, some exported artifact of the same notebook lives
under models/NAME/1/, and NAME is also the model_name of an inference
request submitted by the same notebook: naming is consistent end to
end. -/
theorem model_naming_consistent :
    ∀ nb ∈ allNotebooks, ∀ pc ∈ configWritesOf nb,
      pc.1 = "models/" ++ pc.2.name ++ "/config.pbtxt" ∧
      (∃ p ∈ exportPathsOf nb,
        strStartsWith ("models/" ++ pc.2.name ++ "/1/") p = true) ∧
      pc.2.name ∈ (inferReqsOf nb).map InferReq.modelName := by
  decide

/-- Witness for claim C3 at the simple-pytorch-model configuration of
notebook 02. -/
theorem model_naming_consistent_witness :
    "models/simple-pytorch-model/config.pbtxt" =
      "models/" ++ pytorchConfig.name ++ "/config.pbtxt" ∧
    (∃ p ∈ exportPathsOf notebook02,
      strStartsWith ("models/" ++ pytorchConfig.name ++ "/1/") p = true) ∧
    pytorchConfig.name ∈ (inferReqsOf notebook02).map InferReq.modelName :=
  model_naming_consistent notebook02 (by decide)
    ("models/simple-pytorch-model/config.pbtxt", pytorchConfig) (by decide)

/-- Claim C4: every configuration blob written by a notebook has
max_batch_size 32, exactly one input and one output tensor entry, every
tensor entry has a nonempty name and data type TYPE_FP32, the input
dims are a 3-element image shape ([3,224,224] or [224,224,3]), the
output dims are [1000], and the blob carries a nonempty model name and
platform string. -/
theorem config_blob_shape :
    ∀ nb ∈ allNotebooks, ∀ pc ∈ configWritesOf nb,
      pc.2.maxBatchSize = 32 ∧
      pc.2.inputs.length = 1 ∧
      pc.2.outputs.length = 1 ∧
      (∀ t ∈ pc.2.inputs ++ pc.2.outputs,
        t.dataType = "TYPE_FP32" ∧ t.name ≠ "") ∧
      (∀ t ∈ pc.2.inputs,
        t.dims = [3, 224, 224] ∨ t.dims = [224, 224, 3]) ∧
      (∀ t ∈ pc.2.outputs, t.dims = [1000]) ∧
      pc.2.name ≠ "" ∧ pc.2.platform ≠ "" := by
  decide

/-- Witness for claim C4 at the simple-tensorflow-model configuration of
notebook 04. -/
theorem config_blob_shape_witness :
    tfConfig.maxBatchSize = 32 ∧ tfConfig.inputs.length = 1 ∧
    tfConfig.outputs.length = 1 :=
  have h := config_blob_shape notebook04 (by decide)
    ("models/simple-tensorflow-model/config.pbtxt", tfConfig) (by decide)
  ⟨h.1, h.2.1, h.2.2.1⟩

/-! ### Sleep placement (claim C6) -/

/-- Whether an operation is the shell sleep. -/
def isSleep : Op → Bool
  | Op.shellSleep _ => true
  | _ => false

/-- Whether an operation writes a configuration file. -/
def isConfigWrite : Op → Bool
  | Op.writeConfig _ _ => true
  | _ => false

/-- Whether an operation sends a request to the external server (curl
of a readiness endpoint, model metadata or config retrieval, or an
inference request). -/
def isServerRequest : Op → Bool
  | Op.curlGet _ => true
  | Op.getModelMetadata _ => true
  | Op.getModelConfig _ => true
  | Op.inferRequest _ => true
  | _ => false

/-- The positions (within the notebook's flattened operation list) of
the operations satisfying p. -/
def opIdxs (nb : List Cell) (p : Op → Bool) : List Nat :=
  ((allOps nb).enum.filter fun x => p x.2).map fun x => x.1

/-- The sleep durations a notebook executes, in order. -/
def sleepsOf (nb : List Cell) : List Nat :=
  (allOps nb).filterMap fun op =>
    match op with
    | Op.shellSleep s => some s
    | _ => none

/-- Claim C6: every notebook executes exactly one sleep, of exactly 45
seconds, and it is placed after every configuration-file write and
before every request to the external server (curl readiness checks,
metadata/config retrievals and inference requests). -/
theorem single_sleep_between_config_and_requests :
    ∀ nb ∈ allNotebooks,
      sleepsOf nb = [45] ∧
      ∀ i ∈ opIdxs nb isSleep,
        (∀ j ∈ opIdxs nb isConfigWrite, j < i) ∧
        (∀ k ∈ opIdxs nb isServerRequest, i < k) := by
  decide

/-- Witness for claim C6 at notebook 04. -/
theorem single_sleep_witness : sleepsOf notebook04 = [45] :=
  (single_sleep_between_config_and_requests notebook04 (by decide)).1

/-! ### Filesystem frame (claim C7) -/

/-- The filesystem paths an operation creates, modifies or deletes.
mkdir creates a directory, the export calls and trtexec write artifact
files, writeConfig writes the configuration text, rm -rf deletes a
tree; every other operation leaves the filesystem unchanged. -/
def writesOf : Op → List String
  | Op.mkdir p => [p]
  | Op.exportModel _ p => [p]
  | Op.trtexecConvert c => [c.saveEngine]
  | Op.writeConfig p _ => [p]
  | Op.rmTree p => [p]
  | _ => []

/-- Whether an operation is a framework artifact export (including the
trtexec engine build). -/
def isExport : Op → Bool
  | Op.exportModel _ _ => true
  | Op.trtexecConvert _ => true
  | _ => false

/-- Whether an operation is a shell mkdir. -/
def isMkdir : Op → Bool
  | Op.mkdir _ => true
  | _ => false

/-- Whether an operation is the shell rm -rf cleanup. -/
def isRmTree : Op → Bool
  | Op.rmTree _ => true
  | _ => false

/-- Claim C7, counterexample: the notebooks do not restrict their
filesystem effects to configuration writes and artifact exports: the
cleanup cell of notebook 04 runs rm -rf models/simple-tensorflow-model,
a filesystem-mutating operation that is neither (the mkdir cells are a
further kind). -/
theorem notebook04_rm_not_config_or_export :
    Op.rmTree "models/simple-tensorflow-model" ∈ allOps notebook04 ∧
    writesOf (Op.rmTree "models/simple-tensorflow-model") ≠ [] ∧
    isConfigWrite (Op.rmTree "models/simple-tensorflow-model") = false ∧
    isExport (Op.rmTree "models/simple-tensorflow-model") = false := by
  decide

/-- Claim C7 (amended): the only filesystem-mutating operations the
notebooks perform are directory creations, configuration-file writes,
model-artifact exports, and the final rm -rf cleanup of
models/simple-tensorflow-model in notebook 04; and every path any of
them creates, modifies or deletes lies inside the models/ repository
tree. -/
theorem filesystem_frame :
    ∀ nb ∈ allNotebooks, ∀ op ∈ allOps nb,
      (writesOf op ≠ [] →
        (isMkdir op || isConfigWrite op || isExport op || isRmTree op) = true) ∧
      ∀ p ∈ writesOf op, strStartsWith "models/" p = true := by
  decide

/-- Witness for the amended claim C7 at the TorchScript export of
notebook 02. -/
theorem filesystem_frame_witness :
    strStartsWith "models/" "models/simple-pytorch-model/1/model.pt" = true :=
  (filesystem_frame notebook02 (by decide)
    (Op.exportModel ExportKind.torchscript "models/simple-pytorch-model/1/model.pt")
    (by decide)).2 "models/simple-pytorch-model/1/model.pt" (by decide)

/-! ### trtexec batch bounds (claim C10) -/

/-- Claim C10: the two trtexec invocations of notebook 05 use identical
batch bounds for input actual_input_1 (minShapes batch 1, optShapes
batch 16, maxShapes batch 32); the maximum bound 32 equals the
max_batch_size declared in both TensorRT config.pbtxt blobs; and every
inference request notebook 05 submits has batch size 1, which lies
within those bounds. -/
theorem trtexec_batch_bounds :
    trtexecFp32.minShapes = ⟨"actual_input_1", [1, 3, 224, 224]⟩ ∧
    trtexecFp32.optShapes = ⟨"actual_input_1", [16, 3, 224, 224]⟩ ∧
    trtexecFp32.maxShapes = ⟨"actual_input_1", [32, 3, 224, 224]⟩ ∧
    trtexecFp16.minShapes = trtexecFp32.minShapes ∧
    trtexecFp16.optShapes = trtexecFp32.optShapes ∧
    trtexecFp16.maxShapes = trtexecFp32.maxShapes ∧
    trtexecFp32.maxShapes.dims.headD 0 = trtFp32Config.maxBatchSize ∧
    trtexecFp16.maxShapes.dims.headD 0 = trtFp16Config.maxBatchSize ∧
    ∀ r ∈ inferReqsOf notebook05,
      r.inputShape.headD 0 = 1 ∧
      trtexecFp32.minShapes.dims.headD 0 ≤ r.inputShape.headD 0 ∧
      r.inputShape.headD 0 ≤ trtexecFp32.maxShapes.dims.headD 0 := by
  decide

/-- Witness for claim C10 at the FP32 inference request of notebook 05. -/
theorem trtexec_batch_bounds_witness :
    trtFp32Req.inputShape.headD 0 = 1 :=
  (trtexec_batch_bounds.2.2.2.2.2.2.2.2 trtFp32Req (by decide)).1

/-! ### Error propagation (claim C5)

Since no cell contains a try/except handler, notebook execution is the
plain sequential composition of its operations in an exception monad:
the first failing operation aborts the run with its error unchanged. -/

/-- Sequential execution of a notebook's operations against a world w
assigning each primitive operation a result; there is no handler, so a
failing operation aborts the run with its error. -/
def runOps (w : Op → Except String Unit) : List Op → Except String Unit
  | [] => Except.ok ()
  | op :: rest =>
    match w op with
    | Except.error e => Except.error e
    | Except.ok _ => runOps w rest

/-- If every operation before op succeeds and op fails with e, the
whole run fails with e. -/
theorem runOps_error_of_prefix (w : Op → Except String Unit) :
    ∀ (pre : List Op) (op : Op) (rest : List Op) (e : String),
      (∀ o ∈ pre, w o = Except.ok ()) → w op = Except.error e →
      runOps w (pre ++ op :: rest) = Except.error e := by
  intro pre
  induction pre with
  | nil =>
    intro op rest e _ hop
    simp [runOps, hop]
  | cons o pre ih =>
    intro op rest e hpre hop
    have ho : w o = Except.ok () := hpre o (List.mem_cons_self o pre)
    simp only [List.cons_append, runOps, ho]
    exact ih op rest e (fun o hm => hpre o (List.mem_cons_of_mem _ hm)) hop

/-- Claim C5: no cell of any notebook contains a try/except handler or
inspects an HTTP response status, and consequently any failure raised
by an operation propagates unchanged: whenever a notebook's operation
list splits as pre ++ op :: rest with every operation of pre succeeding
and op failing with error e, the whole execution fails with exactly e. -/
theorem no_error_handling :
    (∀ nb ∈ allNotebooks, ∀ c ∈ nb,
      c.hasTryExcept = false ∧ c.inspectsHttpStatus = false) ∧
    ∀ nb ∈ allNotebooks, ∀ (w : Op → Except String Unit)
      (pre : List Op) (op : Op) (rest : List Op) (e : String),
      allOps nb = pre ++ op :: rest →
      (∀ o ∈ pre, w o = Except.ok ()) → w op = Except.error e →
      runOps w (allOps nb) = Except.error e := by
  constructor
  · decide
  · intro nb _ w pre op rest e hsplit hpre hop
    rw [hsplit]
    exact runOps_error_of_prefix w pre op rest e hpre hop

/-- Witness for claim C5: in a world where the first mkdir of notebook
02 fails with an IO error, the whole run fails with that error. -/
theorem no_error_handling_witness :
    runOps (fun _ => Except.error "io failure") (allOps notebook02) =
      Except.error "io failure" :=
  no_error_handling.2 notebook02 (by decide)
    (fun _ => Except.error "io failure")
    [] (Op.mkdir "models/simple-pytorch-model") (allOps notebook02).tail
    "io failure" rfl
    (fun o hm => absurd hm (List.not_mem_nil o)) rfl

/-! ### Response decoding (claim C8)

Each notebook decodes the server response with
logits = response.as_numpy(output_name); print(labels[np.argmax(logits)]).
We model the returned logits as a list of integers (the claim is purely
order-theoretic) and np.argmax as the index of the first maximal
element. -/

/-- np.argmax over a flat list: the index of the first occurrence of
the maximal element (0 for the empty list). -/
def argmaxLogits : List Int → Nat
  | [] => 0
  | [_] => 0
  | x :: y :: rest =>
    if (y :: rest).getD (argmaxLogits (y :: rest)) 0 > x then
      argmaxLogits (y :: rest) + 1
    else 0

/-- The argmax of a nonempty list is a valid index. -/
theorem argmaxLogits_lt_length :
    ∀ (l : List Int), l ≠ [] → argmaxLogits l < l.length := by
  intro l
  induction l with
  | nil => intro h; exact absurd rfl h
  | cons x xs ih =>
    intro _
    cases xs with
    | nil => simp [argmaxLogits]
    | cons y rest =>
      have h1 : argmaxLogits (y :: rest) < (y :: rest).length := ih (by simp)
      simp only [List.length_cons] at h1 ⊢
      simp only [argmaxLogits]
      split
      · omega
      · omega

/-- The element at the argmax dominates every element of the list. -/
theorem argmaxLogits_maximal :
    ∀ (l : List Int) (i : Nat), i < l.length →
      l.getD i 0 ≤ l.getD (argmaxLogits l) 0 := by
  intro l
  induction l with
  | nil => intro i hi; simp at hi
  | cons x xs ih =>
    intro i hi
    cases xs with
    | nil =>
      have hz : i = 0 := by
        simp only [List.length_cons, List.length_nil] at hi
        omega
      subst hz
      simp [argmaxLogits]
    | cons y rest =>
      simp only [argmaxLogits]
      by_cases hc : (y :: rest).getD (argmaxLogits (y :: rest)) 0 > x
      · rw [if_pos hc]
        cases i with
        | zero =>
          rw [List.getD_cons_zero, List.getD_cons_succ]
          exact le_of_lt hc
        | succ k =>
          rw [List.getD_cons_succ, List.getD_cons_succ]
          exact ih k (by simpa using hi)
      · rw [if_neg hc]
        push_neg at hc
        cases i with
        | zero => simp
        | succ k =>
          rw [List.getD_cons_succ, List.getD_cons_zero]
          exact le_trans (ih k (by simpa using hi)) hc

/-- The decode step of every notebook: print(labels[np.argmax(logits)]).
When the index is in range this is exactly the Python expression; the
default is never consulted under the bounds hypotheses below. -/
def decodeResponse (labels : List String) (logits : List Int) : String :=
  labels.getD (argmaxLogits logits) ""

/-- Claim C8: every output tensor name a notebook decodes and prints is
the output name of an inference request submitted by the same notebook;
for a nonempty logits list fitting the label list, the decode step
prints exactly the label at the argmax index, whose logit dominates all
returned logits; and whenever the returned logits attain their strict
maximum at index i, the decode step prints exactly the label at i (for
the goldfish demonstration image, the goldfish label whenever the
goldfish logit is the strict maximum the server returns). -/
theorem response_decode_correct :
    (∀ nb ∈ allNotebooks, ∀ n ∈ decodePrintNamesOf nb,
      n ∈ (inferReqsOf nb).map InferReq.outputName) ∧
    (∀ (labels : List String) (logits : List Int),
      logits ≠ [] → logits.length ≤ labels.length →
      ∃ h : argmaxLogits logits < labels.length,
        decodeResponse labels logits = labels.get ⟨argmaxLogits logits, h⟩ ∧
        ∀ i, i < logits.length →
          logits.getD i 0 ≤ logits.getD (argmaxLogits logits) 0) ∧
    ∀ (labels : List String) (logits : List Int) (i : Nat),
      i < logits.length → logits.length ≤ labels.length →
      (∀ j, j < logits.length → j ≠ i →
        logits.getD j 0 < logits.getD i 0) →
      decodeResponse labels logits = labels.getD i "" := by
  refine ⟨by decide, ?_, ?_⟩
  · intro labels logits hne hlen
    have h1 := argmaxLogits_lt_length logits hne
    refine ⟨lt_of_lt_of_le h1 hlen, ?_, fun i hi => argmaxLogits_maximal logits i hi⟩
    simp only [decodeResponse, List.get_eq_getElem]
    exact List.getD_eq_getElem labels "" (lt_of_lt_of_le h1 hlen)
  · intro labels logits i hi hlen hstrict
    have hne : logits ≠ [] := by
      intro h
      subst h
      simp at hi
    have hm := argmaxLogits_lt_length logits hne
    have heq : argmaxLogits logits = i := by
      by_contra hne2
      have h1 := argmaxLogits_maximal logits i hi
      have h2 := hstrict (argmaxLogits logits) hm hne2
      omega
    simp only [decodeResponse, heq]

/-- Witness for claim C8: when the returned logits are [3, 7] and the
labels are [tench, goldfish], the decode step prints goldfish. -/
theorem response_decode_witness :
    decodeResponse ["tench", "goldfish"] [3, 7] = "goldfish" :=
  response_decode_correct.2.2 ["tench", "goldfish"] [3, 7] 1
    (by decide) (by decide) (by decide)

/-! ### PyTorch preprocessing normalization (claim C9)

Notebook 02 defines imagenet_mean and imagenet_std and builds
transforms.Compose([resize, center_crop, to_tensor, normalize]).
The same transformed tensor is used for the local validation
(image_tensor) and, via image_numpy = image_tensor.cpu().numpy(), for
the inference request.  Values are modelled as rationals. -/

/-- The channel means of notebook 02: imagenet_mean = [0.485, 0.456, 0.406]. -/
def imagenet_mean : List ℚ := [485/1000, 456/1000, 406/1000]

/-- The channel standard deviations of notebook 02:
imagenet_std = [0.485, 0.456, 0.406]. -/
def imagenet_std : List ℚ := [485/1000, 456/1000, 406/1000]

/-- The actual standard deviations of the ImageNet dataset as used by
the standard torchvision pipelines: [0.229, 0.224, 0.225].  This
constant follows the spec's words (the standard ImageNet standard
deviations); it does not appear in the code. -/
def standardImagenetStd : List ℚ := [229/1000, 224/1000, 225/1000]

/-- The stages of a torchvision transform pipeline used in notebook 02. -/
inductive TransformStage where
  /-- transforms.Resize((h, w)). -/
  | resize (h w : Nat)
  /-- transforms.CenterCrop(size). -/
  | centerCrop (size : Nat)
  /-- transforms.ToTensor(). -/
  | toTensor
  /-- transforms.Normalize(mean, std), acting per channel as
  x maps to (x - mean[c]) / std[c]. -/
  | normalize (mean std : List ℚ)
deriving DecidableEq

/-- The transforms.Compose pipeline of notebook 02:
[resize, center_crop, to_tensor, normalize]. -/
def transformPipeline : List TransformStage :=
  [TransformStage.resize 256 256, TransformStage.centerCrop 224,
    TransformStage.toTensor,
    TransformStage.normalize imagenet_mean imagenet_std]

/-- The pipeline applied to produce image_tensor, the tensor used for
local validation (image_tensor = transform(image).unsqueeze(0).cuda()). -/
def localImagePipeline : List TransformStage := transformPipeline

/-- The pipeline behind the request tensor: notebook 02 sets
image_numpy = image_tensor.cpu().numpy(), so the inference request
carries the same transformed data. -/
def requestImagePipeline : List TransformStage := localImagePipeline

/-- Per-channel action of transforms.Normalize: (x - m) / s. -/
def normalizeChannel (x m s : ℚ) : ℚ := (x - m) / s

/-- Claim C9: notebook 02 sets imagenet_std to exactly the same
constant list as imagenet_mean (and not to the standard ImageNet
standard deviations), the request tensor goes through the same pipeline
as the local-validation tensor, every normalize stage of that pipeline
has std equal to mean, and hence each channel c is normalized as
(x - m) / m with m the channel mean. -/
theorem normalization_std_equals_mean :
    imagenet_std = imagenet_mean ∧
    imagenet_std ≠ standardImagenetStd ∧
    requestImagePipeline = localImagePipeline ∧
    (∀ st ∈ localImagePipeline, ∀ m s,
      st = TransformStage.normalize m s → s = m) ∧
    ∀ c, c < 3 → ∀ x : ℚ,
      normalizeChannel x (imagenet_mean.getD c 0) (imagenet_std.getD c 0) =
        (x - imagenet_mean.getD c 0) / imagenet_mean.getD c 0 := by
  refine ⟨rfl, by norm_num [imagenet_std, standardImagenetStd], rfl, ?_, ?_⟩
  · intro st hst m s heq
    fin_cases hst
    · simp at heq
    · simp at heq
    · simp at heq
    · injection heq with hm hs
      subst hm
      subst hs
      rfl
  · intro c _ x
    rfl

/-- Witness for claim C9 at channel 0 and pixel value 1: the division
is by the channel mean 0.485, not by a standard deviation. -/
theorem normalization_witness :
    normalizeChannel 1 (imagenet_mean.getD 0 0) (imagenet_std.getD 0 0) =
      (1 - imagenet_mean.getD 0 0) / imagenet_mean.getD 0 0 :=
  normalization_std_equals_mean.2.2.2.2 0 (by decide) 1

end NB
